import Mathlib

/-!
Verification of the fantasyBasketballSim persistence schema (`src/db/models.py`).

The development embeds the data model in two layers, mirroring how the
SQLAlchemy declarative code behaves:

* the *object* layer: in-memory Python instances (`PlayerObj`, `GameObj`,
  `InjuryObj`, `PlayerGameObj`).  Before a flush, any attribute of such an
  instance may still be `None` (column defaults are applied only at flush),
  so every attribute is `Option`-typed.  The computed properties
  `fg_pct`/`ft_pct` and the `TimestampMixin.touch` method live here.
* the *row* layer: committed database rows (`PlayerRow`, `GameRow`,
  `InjuryRow`, `PlayerGameRow`), in which every `nullable=False` column
  carries a plain value and every nullable column an `Option`.  The database
  state `DBState` is the four tables; the commit-time operations
  (`insertPlayer`, `insertGame`, `insertPlayerGame`) enforce exactly the
  constraints declared in the schema (`unique=True` on `external_id`,
  `UniqueConstraint("player_id", "game_id")`), and `deletePlayer` /
  `deleteGame` implement the declared cascades
  (`cascade="all, delete-orphan"`, `ondelete="CASCADE"`).

Python numbers are modelled by `Int` and `ℚ` (exact semantics of the integer
and float arithmetic the code performs on them); timestamps are the sortable
ISO-8601 strings produced by `now_str`, with the clock reading passed in
explicitly (the spec requires tests to inject the clock).
-/

namespace FantasyBasketballSim

/-- Errors distinguished by the model, following the error taxonomy used by
the schema layer: construction-time kinds, a dynamic Python type error, and
commit-time constraint kinds. -/
inductive ConstructError where
  | missingRequiredField (field : String)
  | typeMismatch (field : String)
deriving DecidableEq

/-- Dynamic error raised by the Python runtime while evaluating an
expression, e.g. dividing `None` by a float. -/
inductive PyError where
  | typeError
deriving DecidableEq

/-- Commit-time errors raised by the storage layer for the constraints the
schema declares. -/
inductive DBError where
  | uniqueConstraintViolation
  | notNullViolation
deriving DecidableEq

/-- A dynamically-typed Python value, as assignable to any attribute of a
declarative instance (the mapped type annotations are not enforced at
runtime). -/
inductive PyValue where
  | vNone
  | vInt (n : Int)
  | vFloat (q : ℚ)
  | vStr (s : String)
deriving DecidableEq

/-- In-memory `Player` instance (models.py lines 39-60).  Every attribute may
be unset (`None`) before flush; `created_at`/`updated_at` come from
`TimestampMixin`. -/
structure PlayerObj where
  id : Option Int := none
  external_id : Option String := none
  name : Option String := none
  team : Option String := none
  position : Option String := none
  active : Option Int := none
  height_in : Option ℚ := none
  weight_lb : Option ℚ := none
  created_at : Option String := none
  updated_at : Option String := none
deriving DecidableEq

/-- In-memory `Game` instance (models.py lines 63-81). -/
structure GameObj where
  id : Option Int := none
  external_id : Option String := none
  season : Option String := none
  date : Option String := none
  home_team : Option String := none
  away_team : Option String := none
  home_score : Option Int := none
  away_score : Option Int := none
  created_at : Option String := none
  updated_at : Option String := none
deriving DecidableEq

/-- In-memory `Injury` instance (models.py lines 84-102). -/
structure InjuryObj where
  id : Option Int := none
  player_id : Option Int := none
  status : Option String := none
  description : Option String := none
  start : Option String := none
  expected_end : Option String := none
  actual_end : Option String := none
  source : Option String := none
  created_at : Option String := none
  updated_at : Option String := none
deriving DecidableEq

/-- In-memory `PlayerGame` instance (models.py lines 105-153). -/
structure PlayerGameObj where
  id : Option Int := none
  game_id : Option Int := none
  player_id : Option Int := none
  minutes : Option ℚ := none
  points : Option Int := none
  assists : Option Int := none
  rebounds : Option Int := none
  steals : Option Int := none
  blocks : Option Int := none
  fg_attempts : Option Int := none
  fg_made : Option Int := none
  ft_attempts : Option Int := none
  ft_made : Option Int := none
  threes_made : Option Int := none
  turnovers : Option Int := none
  plus_minus : Option Int := none
  fouls : Option Int := none
  started : Option Int := none
  created_at : Option String := none
  updated_at : Option String := none
deriving DecidableEq

/-- TimestampMixin.touch on a `Player`: `self.updated_at = now_str()`, with
the clock reading `t` injected. -/
def PlayerObj.touch (p : PlayerObj) (t : String) : PlayerObj :=
  { p with updated_at := some t }

/-- TimestampMixin.touch on a `Game`. -/
def GameObj.touch (g : GameObj) (t : String) : GameObj :=
  { g with updated_at := some t }

/-- TimestampMixin.touch on an `Injury`. -/
def InjuryObj.touch (i : InjuryObj) (t : String) : InjuryObj :=
  { i with updated_at := some t }

/-- TimestampMixin.touch on a `PlayerGame`. -/
def PlayerGameObj.touch (pg : PlayerGameObj) (t : String) : PlayerGameObj :=
  { pg with updated_at := some t }

/-- Computed property `PlayerGame.fg_pct` (models.py lines 140-144):
`if self.fg_attempts and self.fg_attempts > 0: return self.fg_made /
float(self.fg_attempts)`, `return None` otherwise.  An unset (`None`) or
zero `fg_attempts` is falsy, so the guard fails and `None` is returned;
when the guard passes but `fg_made` is unset, the division `None / float`
raises a `TypeError`. -/
def fg_pct (pg : PlayerGameObj) : Except PyError (Option ℚ) :=
  match pg.fg_attempts with
  | none => .ok none
  | some a =>
    if a ≠ 0 ∧ 0 < a then
      match pg.fg_made with
      | none => .error .typeError
      | some m => .ok (some ((m : ℚ) / (a : ℚ)))
    else
      .ok none

/-- Computed property `PlayerGame.ft_pct` (models.py lines 146-150):
identical shape to `fg_pct` over the free-throw counters. -/
def ft_pct (pg : PlayerGameObj) : Except PyError (Option ℚ) :=
  match pg.ft_attempts with
  | none => .ok none
  | some a =>
    if a ≠ 0 ∧ 0 < a then
      match pg.ft_made with
      | none => .error .typeError
      | some m => .ok (some ((m : ℚ) / (a : ℚ)))
    else
      .ok none

/-- Committed `players` row: `nullable=False` columns (`id`, `name`, and the
defaulted `active` and timestamps) are plain values, the rest `Option`. -/
structure PlayerRow where
  id : Int
  external_id : Option String := none
  name : String
  team : Option String := none
  position : Option String := none
  active : Int := 1
  height_in : Option ℚ := none
  weight_lb : Option ℚ := none
  created_at : String
  updated_at : String
deriving DecidableEq

/-- Committed `games` row. -/
structure GameRow where
  id : Int
  external_id : Option String := none
  season : Option String := none
  date : String
  home_team : String
  away_team : String
  home_score : Option Int := none
  away_score : Option Int := none
  created_at : String
  updated_at : String
deriving DecidableEq

/-- Committed `injuries` row. -/
structure InjuryRow where
  id : Int
  player_id : Int
  status : Option String := none
  description : Option String := none
  start : String
  expected_end : Option String := none
  actual_end : Option String := none
  source : Option String := none
  created_at : String
  updated_at : String
deriving DecidableEq

/-- Committed `player_games` row: all counters are `NOT NULL` with default 0,
while `minutes` and `plus_minus` are nullable. -/
structure PlayerGameRow where
  id : Int
  game_id : Int
  player_id : Int
  minutes : Option ℚ := none
  points : Int := 0
  assists : Int := 0
  rebounds : Int := 0
  steals : Int := 0
  blocks : Int := 0
  fg_attempts : Int := 0
  fg_made : Int := 0
  ft_attempts : Int := 0
  ft_made : Int := 0
  threes_made : Int := 0
  turnovers : Int := 0
  plus_minus : Option Int := none
  fouls : Int := 0
  started : Int := 0
  created_at : String
  updated_at : String
deriving DecidableEq

/-- Loading a committed `player_games` row back into an in-memory instance:
every column value is present on the loaded object. -/
def PlayerGameRow.load (r : PlayerGameRow) : PlayerGameObj where
  id := some r.id
  game_id := some r.game_id
  player_id := some r.player_id
  minutes := r.minutes
  points := some r.points
  assists := some r.assists
  rebounds := some r.rebounds
  steals := some r.steals
  blocks := some r.blocks
  fg_attempts := some r.fg_attempts
  fg_made := some r.fg_made
  ft_attempts := some r.ft_attempts
  ft_made := some r.ft_made
  threes_made := some r.threes_made
  turnovers := some r.turnovers
  plus_minus := r.plus_minus
  fouls := some r.fouls
  started := some r.started
  created_at := some r.created_at
  updated_at := some r.updated_at

/-- Database state: the four tables declared by the models, each a list of
committed rows in insertion order. -/
structure DBState where
  players : List PlayerRow := []
  games : List GameRow := []
  injuries : List InjuryRow := []
  player_games : List PlayerGameRow := []
deriving DecidableEq

/-- Commit of one new `players` row.  Enforces the single constraint the
`players` table declares beyond its primary key: `external_id` is
`unique=True`, a check the storage layer skips when the value is NULL. -/
def insertPlayer (db : DBState) (p : PlayerRow) : Except DBError DBState :=
  match p.external_id with
  | none => .ok { db with players := db.players ++ [p] }
  | some x =>
    if db.players.any (fun q => q.external_id == some x) then
      .error .uniqueConstraintViolation
    else
      .ok { db with players := db.players ++ [p] }

/-- Commit of one new `games` row, enforcing the declared `unique=True` on
the `games.external_id` column, skipped when the value is NULL. -/
def insertGame (db : DBState) (g : GameRow) : Except DBError DBState :=
  match g.external_id with
  | none => .ok { db with games := db.games ++ [g] }
  | some x =>
    if db.games.any (fun q => q.external_id == some x) then
      .error .uniqueConstraintViolation
    else
      .ok { db with games := db.games ++ [g] }

/-- Commit of one new `player_games` row, enforcing the declared composite
constraint `UniqueConstraint("player_id", "game_id",
name="uq_player_game_once")`. -/
def insertPlayerGame (db : DBState) (pg : PlayerGameRow) : Except DBError DBState :=
  if db.player_games.any (fun q => q.player_id == pg.player_id && q.game_id == pg.game_id) then
    .error .uniqueConstraintViolation
  else
    .ok { db with player_games := db.player_games ++ [pg] }

/-- Deletion of a `Player`, with the cascades the model declares: the
`Player.games` and `Player.injuries` relationships both carry
`cascade="all, delete-orphan"` (and the corresponding foreign keys are
`ondelete="CASCADE"`), so the owned `player_games` and `injuries` rows are
deleted in the same transaction as the parent row. -/
def deletePlayer (db : DBState) (pid : Int) : DBState :=
  { db with
    players := db.players.filter (fun p => p.id != pid)
    player_games := db.player_games.filter (fun pg => pg.player_id != pid)
    injuries := db.injuries.filter (fun i => i.player_id != pid) }

/-- Deletion of a `Game`, cascading over `Game.player_games`
(`cascade="all, delete-orphan"`, foreign key `ondelete="CASCADE"`). -/
def deleteGame (db : DBState) (gid : Int) : DBState :=
  { db with
    games := db.games.filter (fun g => g.id != gid)
    player_games := db.player_games.filter (fun pg => pg.game_id != gid) }

/-- Retrieval of a `players` row by primary key. -/
def findPlayerById (db : DBState) (i : Int) : Option PlayerRow :=
  db.players.find? (fun p => p.id == i)

/-- Retrieval of a `games` row by primary key. -/
def findGameById (db : DBState) (i : Int) : Option GameRow :=
  db.games.find? (fun g => g.id == i)

/-- Retrieval of a `player_games` row by primary key. -/
def findPlayerGameById (db : DBState) (i : Int) : Option PlayerGameRow :=
  db.player_games.find? (fun pg => pg.id == i)

/-- Retrieval of a `player_games` row by its other identifier, the unique
(`player_id`, `game_id`) pair. -/
def findPlayerGameByPair (db : DBState) (pid gid : Int) : Option PlayerGameRow :=
  db.player_games.find? (fun pg => pg.player_id == pid && pg.game_id == gid)

/-- Retrieval of an `injuries` row by primary key. -/
def findInjuryById (db : DBState) (i : Int) : Option InjuryRow :=
  db.injuries.find? (fun inj => inj.id == i)

/-- Referential integrity of a database state: every dependent row names an
existing parent row. -/
def DBState.wellFormed (db : DBState) : Prop :=
  (∀ pg ∈ db.player_games,
      (∃ p ∈ db.players, p.id = pg.player_id) ∧ (∃ g ∈ db.games, g.id = pg.game_id)) ∧
  (∀ inj ∈ db.injuries, ∃ p ∈ db.players, p.id = inj.player_id)

/-- Constructor `Player(**kwargs)` generated by the declarative base: it
assigns the supplied keyword arguments to the instance and performs no
validation whatsoever — an omitted argument (including the `nullable=False`
column `name`) simply leaves the attribute unset.  The error monad records
the construction-time failure modes, of which there are none. -/
def mkPlayer (external_id : Option String) (name : Option String)
    (team : Option String) (position : Option String) (active : Option Int)
    (height_in : Option ℚ) (weight_lb : Option ℚ) :
    Except ConstructError PlayerObj :=
  .ok { external_id := external_id, name := name, team := team,
        position := position, active := active, height_in := height_in,
        weight_lb := weight_lb }

/-- Constructor `Game(**kwargs)`: assigns keyword arguments, no
validation. -/
def mkGame (external_id : Option String) (season : Option String)
    (date : Option String) (home_team : Option String)
    (away_team : Option String) (home_score : Option Int)
    (away_score : Option Int) : Except ConstructError GameObj :=
  .ok { external_id := external_id, season := season, date := date,
        home_team := home_team, away_team := away_team,
        home_score := home_score, away_score := away_score }

/-- Constructor `Injury(**kwargs)`: assigns keyword arguments, no
validation. -/
def mkInjury (player_id : Option Int) (status : Option String)
    (description : Option String) (start : Option String)
    (expected_end : Option String) (actual_end : Option String)
    (source : Option String) : Except ConstructError InjuryObj :=
  .ok { player_id := player_id, status := status, description := description,
        start := start, expected_end := expected_end,
        actual_end := actual_end, source := source }

/-- Constructor `PlayerGame(**kwargs)`: assigns keyword arguments, no
validation. -/
def mkPlayerGame (game_id : Option Int) (player_id : Option Int)
    (minutes : Option ℚ) (points : Option Int) (fg_attempts : Option Int)
    (fg_made : Option Int) (ft_attempts : Option Int) (ft_made : Option Int) :
    Except ConstructError PlayerGameObj :=
  .ok { game_id := game_id, player_id := player_id, minutes := minutes,
        points := points, fg_attempts := fg_attempts, fg_made := fg_made,
        ft_attempts := ft_attempts, ft_made := ft_made }

/-- A `PlayerGame` instance with dynamically-typed statistic attributes: the
mapped annotations (`Mapped[int]` etc.) are not enforced at runtime, so any
Python value can sit in a numeric attribute of the in-memory object. -/
structure PlayerGameDyn where
  game_id : PyValue := .vNone
  player_id : PyValue := .vNone
  minutes : PyValue := .vNone
  points : PyValue := .vNone
  assists : PyValue := .vNone
  rebounds : PyValue := .vNone
  fg_attempts : PyValue := .vNone
  fg_made : PyValue := .vNone
  ft_attempts : PyValue := .vNone
  ft_made : PyValue := .vNone
deriving DecidableEq

/-- Constructor `PlayerGame(**kwargs)` seen at the dynamic-typing level: the
supplied values are assigned to the attributes verbatim — no type check and
no coercion happens at construction time. -/
def mkPlayerGameDyn (game_id player_id minutes points assists rebounds
    fg_attempts fg_made ft_attempts ft_made : PyValue) :
    Except ConstructError PlayerGameDyn :=
  .ok { game_id := game_id, player_id := player_id, minutes := minutes,
        points := points, assists := assists, rebounds := rebounds,
        fg_attempts := fg_attempts, fg_made := fg_made,
        ft_attempts := ft_attempts, ft_made := ft_made }

/-- Flush of an in-memory `Player` instance into the database: column
defaults (`active=1`, the `now_str` timestamps) fill attributes still unset,
after which the `NOT NULL` constraint on `name` is checked by the storage
layer; `nid` is the autoincrement primary key and `now` the injected clock
reading. -/
def flushPlayer (db : DBState) (nid : Int) (now : String) (p : PlayerObj) :
    Except DBError DBState :=
  match p.name with
  | none => .error .notNullViolation
  | some nm =>
      insertPlayer db
        { id := nid, external_id := p.external_id, name := nm,
          team := p.team, position := p.position,
          active := p.active.getD 1, height_in := p.height_in,
          weight_lb := p.weight_lb, created_at := p.created_at.getD now,
          updated_at := p.updated_at.getD now }

/-! ### Helper lemmas about the derived percentages -/

/-- On a loaded row with `fg_attempts = 0` the guard is falsy and `fg_pct`
returns the undefined value. -/
theorem fg_pct_load_zero (r : PlayerGameRow) (h : r.fg_attempts = 0) :
    fg_pct r.load = .ok none := by
  simp [fg_pct, PlayerGameRow.load, h]

/-- On a loaded row with positive `fg_attempts`, `fg_pct` is the exact
quotient of the counters. -/
theorem fg_pct_load_pos (r : PlayerGameRow) (h : 0 < r.fg_attempts) :
    fg_pct r.load = .ok (some ((r.fg_made : ℚ) / (r.fg_attempts : ℚ))) := by
  simp [fg_pct, PlayerGameRow.load, h, h.ne']

/-- The `ft` analogue of `fg_pct_load_zero`. -/
theorem ft_pct_load_zero (r : PlayerGameRow) (h : r.ft_attempts = 0) :
    ft_pct r.load = .ok none := by
  simp [ft_pct, PlayerGameRow.load, h]

/-- The `ft` analogue of `fg_pct_load_pos`. -/
theorem ft_pct_load_pos (r : PlayerGameRow) (h : 0 < r.ft_attempts) :
    ft_pct r.load = .ok (some ((r.ft_made : ℚ) / (r.ft_attempts : ℚ))) := by
  simp [ft_pct, PlayerGameRow.load, h, h.ne']

/-- Sample committed row: 7 field goals made on 10 attempts, free-throw
counters at their defaults. -/
def pgRow710 : PlayerGameRow :=
  { id := 1, game_id := 1, player_id := 1, fg_made := 7, fg_attempts := 10,
    created_at := "2025-01-01T00:00:00", updated_at := "2025-01-01T00:00:00" }

/-- C1: for every committed `PlayerGame` record, `fg_pct` is the undefined
value when `fg_attempts = 0` and exactly `fg_made / fg_attempts` when
`fg_attempts > 0`; `ft_pct` obeys the identical rule over the free-throw
counters. -/
theorem pct_rule_on_records (r : PlayerGameRow) :
    (r.fg_attempts = 0 → fg_pct r.load = .ok none) ∧
    (0 < r.fg_attempts →
      fg_pct r.load = .ok (some ((r.fg_made : ℚ) / (r.fg_attempts : ℚ)))) ∧
    (r.ft_attempts = 0 → ft_pct r.load = .ok none) ∧
    (0 < r.ft_attempts →
      ft_pct r.load = .ok (some ((r.ft_made : ℚ) / (r.ft_attempts : ℚ)))) :=
  ⟨fg_pct_load_zero r, fg_pct_load_pos r, ft_pct_load_zero r, ft_pct_load_pos r⟩

/-- Witness for C1 at a concrete record: `fg_made = 7`, `fg_attempts = 10`
yields exactly `7/10`, and the untouched free-throw counters (0 attempts)
yield the undefined value. -/
theorem pct_rule_on_records_witness :
    fg_pct pgRow710.load = .ok (some ((7 : ℚ) / (10 : ℚ))) ∧
    ft_pct pgRow710.load = .ok none :=
  ⟨by have h := (pct_rule_on_records pgRow710).2.1 (by decide)
      simpa [pgRow710] using h,
   (pct_rule_on_records pgRow710).2.2.1 (by decide)⟩

/-- Sample committed row whose made counter exceeds its attempts counter —
nothing in the schema or the model forbids it. -/
def pgRowOver : PlayerGameRow :=
  { id := 2, game_id := 1, player_id := 2, fg_made := 2, fg_attempts := 1,
    created_at := "2025-01-01T00:00:00", updated_at := "2025-01-01T00:00:00" }

/-- C5 counterexample: a record with `fg_attempts = 1 > 0` and `fg_made = 2`
is accepted by the model, and its `fg_pct` is `2`, outside `[0,1]` — no
validation ties `fg_made` to `fg_attempts`. -/
theorem fg_pct_unit_range_cex :
    0 < pgRowOver.fg_attempts ∧
    fg_pct pgRowOver.load = .ok (some (2 : ℚ)) ∧
    ¬((2 : ℚ) ≤ 1) :=
  ⟨by decide,
   by have h := fg_pct_load_pos pgRowOver (by decide)
      simpa [pgRowOver] using h,
   by norm_num⟩

/-- C5 amended: for every record with `fg_attempts > 0` *and counters
satisfying `0 ≤ fg_made ≤ fg_attempts`*, the value of `fg_pct` lies in
`[0,1]`. -/
theorem fg_pct_unit_range_amended (r : PlayerGameRow)
    (h0 : 0 < r.fg_attempts) (hm0 : 0 ≤ r.fg_made)
    (hma : r.fg_made ≤ r.fg_attempts) :
    ∃ q : ℚ, fg_pct r.load = .ok (some q) ∧ 0 ≤ q ∧ q ≤ 1 := by
  refine ⟨(r.fg_made : ℚ) / (r.fg_attempts : ℚ), fg_pct_load_pos r h0, ?_, ?_⟩
  · exact div_nonneg (by exact_mod_cast hm0) (by exact_mod_cast h0.le)
  · rw [div_le_one (by exact_mod_cast h0)]
    exact_mod_cast hma

/-- Witness for the amended C5 at the concrete record `pgRow710`. -/
theorem fg_pct_unit_range_amended_witness :
    0 < pgRow710.fg_attempts ∧
    ∃ q : ℚ, fg_pct pgRow710.load = .ok (some q) ∧ 0 ≤ q ∧ q ≤ 1 :=
  ⟨by decide,
   fg_pct_unit_range_amended pgRow710 (by decide) (by decide) (by decide)⟩

/-! ### Totality of the percentage properties on in-memory instances -/

/-- Unset attempts counter: the guard is falsy and `fg_pct` returns the
undefined value without evaluating the division. -/
theorem fg_pct_attempts_unset (pg : PlayerGameObj) (h : pg.fg_attempts = none) :
    fg_pct pg = .ok none := by
  simp [fg_pct, h]

/-- Zero attempts counter: the guard is falsy and `fg_pct` returns the
undefined value. -/
theorem fg_pct_attempts_zero (pg : PlayerGameObj) (h : pg.fg_attempts = some 0) :
    fg_pct pg = .ok none := by
  simp [fg_pct, h]

/-- The `ft` analogue of `fg_pct_attempts_unset`. -/
theorem ft_pct_attempts_unset (pg : PlayerGameObj) (h : pg.ft_attempts = none) :
    ft_pct pg = .ok none := by
  simp [ft_pct, h]

/-- The `ft` analogue of `fg_pct_attempts_zero`. -/
theorem ft_pct_attempts_zero (pg : PlayerGameObj) (h : pg.ft_attempts = some 0) :
    ft_pct pg = .ok none := by
  simp [ft_pct, h]

/-- Evaluating `fg_pct` cannot raise as long as `fg_made` is set whenever
`fg_attempts` is a positive number. -/
theorem fg_pct_ok_of_made (pg : PlayerGameObj)
    (h : ∀ a : Int, pg.fg_attempts = some a → 0 < a → pg.fg_made ≠ none) :
    ∃ v, fg_pct pg = .ok v := by
  cases ha : pg.fg_attempts with
  | none => exact ⟨none, fg_pct_attempts_unset pg ha⟩
  | some a =>
    by_cases hp : a ≠ 0 ∧ 0 < a
    · cases hm : pg.fg_made with
      | none => exact absurd hm (h a ha hp.2)
      | some m => exact ⟨some ((m : ℚ) / (a : ℚ)), by simp [fg_pct, ha, hm, hp]⟩
    · exact ⟨none, by simp [fg_pct, ha, hp]⟩

/-- The `ft` analogue of `fg_pct_ok_of_made`. -/
theorem ft_pct_ok_of_made (pg : PlayerGameObj)
    (h : ∀ a : Int, pg.ft_attempts = some a → 0 < a → pg.ft_made ≠ none) :
    ∃ v, ft_pct pg = .ok v := by
  cases ha : pg.ft_attempts with
  | none => exact ⟨none, ft_pct_attempts_unset pg ha⟩
  | some a =>
    by_cases hp : a ≠ 0 ∧ 0 < a
    · cases hm : pg.ft_made with
      | none => exact absurd hm (h a ha hp.2)
      | some m => exact ⟨some ((m : ℚ) / (a : ℚ)), by simp [ft_pct, ha, hm, hp]⟩
    · exact ⟨none, by simp [ft_pct, ha, hp]⟩

/-- A freshly constructed instance on which only `fg_attempts` has been
assigned: the attempts counter is a positive number while `fg_made` is still
unset. -/
def pgAttemptsOnly : PlayerGameObj := { fg_attempts := some 5 }

/-- C9 counterexample: with `fg_attempts = 5` set but `fg_made` still unset,
the guard passes and the division `None / float(...)` raises a `TypeError` —
evaluation is not error-free on every instance. -/
theorem pct_totality_cex : fg_pct pgAttemptsOnly = .error .typeError := rfl

/-- C9 amended: evaluating `fg_pct`/`ft_pct` never raises *provided the made
counter is set whenever the corresponding attempts counter is a positive
number*; the guard returns the undefined value both when the attempts
counter is zero and when it is still unset. -/
theorem pct_totality_amended (pg : PlayerGameObj)
    (hfg : ∀ a : Int, pg.fg_attempts = some a → 0 < a → pg.fg_made ≠ none)
    (hft : ∀ a : Int, pg.ft_attempts = some a → 0 < a → pg.ft_made ≠ none) :
    (∃ v, fg_pct pg = .ok v) ∧ (∃ v, ft_pct pg = .ok v) ∧
    (pg.fg_attempts = none → fg_pct pg = .ok none) ∧
    (pg.fg_attempts = some 0 → fg_pct pg = .ok none) ∧
    (pg.ft_attempts = none → ft_pct pg = .ok none) ∧
    (pg.ft_attempts = some 0 → ft_pct pg = .ok none) :=
  ⟨fg_pct_ok_of_made pg hfg, ft_pct_ok_of_made pg hft,
   fg_pct_attempts_unset pg, fg_pct_attempts_zero pg,
   ft_pct_attempts_unset pg, ft_pct_attempts_zero pg⟩

/-- Witness for the amended C9 at the loaded concrete record `pgRow710`. -/
theorem pct_totality_amended_witness :
    (∃ v, fg_pct pgRow710.load = .ok v) ∧ (∃ v, ft_pct pgRow710.load = .ok v) :=
  ⟨(pct_totality_amended pgRow710.load
      (fun a _ _ => by simp [pgRow710, PlayerGameRow.load])
      (fun a _ _ => by simp [pgRow710, PlayerGameRow.load])).1,
   (pct_totality_amended pgRow710.load
      (fun a _ _ => by simp [pgRow710, PlayerGameRow.load])
      (fun a _ _ => by simp [pgRow710, PlayerGameRow.load])).2.1⟩

/-! ### The timestamp policy -/

/-- Sample in-memory player with its timestamps already populated. -/
def samplePlayer : PlayerObj :=
  { name := some "A", created_at := some "2025-01-01T00:00:00",
    updated_at := some "2025-01-01T00:00:00" }

/-- C8: on every entity carrying the timestamp policy, `touch` resets
`updated_at` to the injected current instant; under a strictly monotonic
clock (the new reading is strictly above the prior `updated_at` in the
sortable ISO-8601 text order) the stored `updated_at` strictly increases,
and `created_at` is never modified. -/
theorem touch_monotone :
    (∀ (p : PlayerObj) (t u : String), p.updated_at = some u → u < t →
      (p.touch t).updated_at = some t ∧
      (∀ v, (p.touch t).updated_at = some v → u < v) ∧
      (p.touch t).created_at = p.created_at) ∧
    (∀ (g : GameObj) (t u : String), g.updated_at = some u → u < t →
      (g.touch t).updated_at = some t ∧
      (∀ v, (g.touch t).updated_at = some v → u < v) ∧
      (g.touch t).created_at = g.created_at) ∧
    (∀ (i : InjuryObj) (t u : String), i.updated_at = some u → u < t →
      (i.touch t).updated_at = some t ∧
      (∀ v, (i.touch t).updated_at = some v → u < v) ∧
      (i.touch t).created_at = i.created_at) ∧
    (∀ (pg : PlayerGameObj) (t u : String), pg.updated_at = some u → u < t →
      (pg.touch t).updated_at = some t ∧
      (∀ v, (pg.touch t).updated_at = some v → u < v) ∧
      (pg.touch t).created_at = pg.created_at) := by
  refine ⟨?_, ?_, ?_, ?_⟩ <;>
    exact fun x t u _ hlt =>
      ⟨rfl, fun v hv => by injection hv with h; exact h ▸ hlt, rfl⟩

/-- Witness for C8: touching `samplePlayer` with a strictly later clock
reading stores that reading and leaves `created_at` unchanged. -/
theorem touch_monotone_witness :
    (samplePlayer.touch "2025-01-01T00:00:01").updated_at =
        some "2025-01-01T00:00:01" ∧
    (samplePlayer.touch "2025-01-01T00:00:01").created_at =
        samplePlayer.created_at :=
  ⟨(touch_monotone.1 samplePlayer "2025-01-01T00:00:01" "2025-01-01T00:00:00"
      rfl (by rw [String.lt_iff_toList_lt]; decide)).1,
   (touch_monotone.1 samplePlayer "2025-01-01T00:00:01" "2025-01-01T00:00:00"
      rfl (by rw [String.lt_iff_toList_lt]; decide)).2.2⟩

/-- C10: `touch` modifies only `updated_at` — `created_at` and every
entity-specific attribute of each of the four entity types is unchanged by
the call. -/
theorem touch_frame :
    (∀ (p : PlayerObj) (t : String),
      (p.touch t).id = p.id ∧
      (p.touch t).external_id = p.external_id ∧
      (p.touch t).name = p.name ∧
      (p.touch t).team = p.team ∧
      (p.touch t).position = p.position ∧
      (p.touch t).active = p.active ∧
      (p.touch t).height_in = p.height_in ∧
      (p.touch t).weight_lb = p.weight_lb ∧
      (p.touch t).created_at = p.created_at) ∧
    (∀ (g : GameObj) (t : String),
      (g.touch t).id = g.id ∧
      (g.touch t).external_id = g.external_id ∧
      (g.touch t).season = g.season ∧
      (g.touch t).date = g.date ∧
      (g.touch t).home_team = g.home_team ∧
      (g.touch t).away_team = g.away_team ∧
      (g.touch t).home_score = g.home_score ∧
      (g.touch t).away_score = g.away_score ∧
      (g.touch t).created_at = g.created_at) ∧
    (∀ (i : InjuryObj) (t : String),
      (i.touch t).id = i.id ∧
      (i.touch t).player_id = i.player_id ∧
      (i.touch t).status = i.status ∧
      (i.touch t).description = i.description ∧
      (i.touch t).start = i.start ∧
      (i.touch t).expected_end = i.expected_end ∧
      (i.touch t).actual_end = i.actual_end ∧
      (i.touch t).source = i.source ∧
      (i.touch t).created_at = i.created_at) ∧
    (∀ (pg : PlayerGameObj) (t : String),
      (pg.touch t).id = pg.id ∧
      (pg.touch t).game_id = pg.game_id ∧
      (pg.touch t).player_id = pg.player_id ∧
      (pg.touch t).minutes = pg.minutes ∧
      (pg.touch t).points = pg.points ∧
      (pg.touch t).assists = pg.assists ∧
      (pg.touch t).rebounds = pg.rebounds ∧
      (pg.touch t).steals = pg.steals ∧
      (pg.touch t).blocks = pg.blocks ∧
      (pg.touch t).fg_attempts = pg.fg_attempts ∧
      (pg.touch t).fg_made = pg.fg_made ∧
      (pg.touch t).ft_attempts = pg.ft_attempts ∧
      (pg.touch t).ft_made = pg.ft_made ∧
      (pg.touch t).threes_made = pg.threes_made ∧
      (pg.touch t).turnovers = pg.turnovers ∧
      (pg.touch t).plus_minus = pg.plus_minus ∧
      (pg.touch t).fouls = pg.fouls ∧
      (pg.touch t).started = pg.started ∧
      (pg.touch t).created_at = pg.created_at) := by
  refine ⟨fun p t => ?_, fun g t => ?_, fun i t => ?_, fun pg t => ?_⟩ <;>
    (repeat' apply And.intro) <;> rfl

/-! ### Construction-time behaviour -/

/-- C6 counterexample: constructing a `Player` without its required `name`
does not fail — the declarative constructor returns an instance whose `name`
attribute is simply unset, and in particular no `MissingRequiredFieldError`
is raised. -/
theorem required_field_construction_cex :
    mkPlayer none none none none none none none = .ok ({} : PlayerObj) ∧
    mkPlayer none none none none none none none ≠
      .error (.missingRequiredField "name") :=
  ⟨rfl, fun h => nomatch h⟩

/-- C6 amended: constructing any of the four entities without a required
field (`Player.name`, `Game.date`, `Injury.player_id`/`Injury.start`,
`PlayerGame.player_id`) succeeds at construction time, leaving the field
unset; required-ness is enforced only by the storage layer at flush time,
where e.g. a `Player` without `name` fails with a NOT NULL violation — not
with a construction-time `MissingRequiredFieldError`. -/
theorem required_field_construction_amended :
    (∀ (a b c : Option String) (d : Option Int) (e f : Option ℚ),
      ∃ p : PlayerObj, mkPlayer a none b c d e f = .ok p ∧ p.name = none ∧
        ∀ (db : DBState) (nid : Int) (now : String),
          flushPlayer db nid now p = .error .notNullViolation) ∧
    (∀ (a b c d : Option String) (e f : Option Int),
      ∃ g : GameObj, mkGame a b none c d e f = .ok g ∧ g.date = none) ∧
    (∀ (a b c d e : Option String),
      ∃ i : InjuryObj, mkInjury none a b none c d e = .ok i ∧
        i.player_id = none ∧ i.start = none) ∧
    (∀ (g : Option Int) (m : Option ℚ) (a b c d e : Option Int),
      ∃ pg : PlayerGameObj, mkPlayerGame g none m a b c d e = .ok pg ∧
        pg.player_id = none) := by
  refine ⟨fun a b c d e f => ?_, fun a b c d e f => ?_,
          fun a b c d e => ?_, fun g m a b c d e => ?_⟩
  · exact ⟨_, rfl, rfl, fun db nid now => rfl⟩
  · exact ⟨_, rfl, rfl⟩
  · exact ⟨_, rfl, rfl, rfl⟩
  · exact ⟨_, rfl, rfl⟩

/-- C7 counterexample: constructing a `PlayerGame` with the string
`"thirty"` in the numeric `points` attribute succeeds — no construction-time
type check runs, and no `TypeMismatchError` is raised. -/
theorem type_coercion_construction_cex :
    mkPlayerGameDyn (.vInt 1) (.vInt 1) .vNone (.vStr "thirty") .vNone .vNone
        .vNone .vNone .vNone .vNone =
      .ok { game_id := .vInt 1, player_id := .vInt 1,
            points := .vStr "thirty" } ∧
    (∀ f, mkPlayerGameDyn (.vInt 1) (.vInt 1) .vNone (.vStr "thirty") .vNone
        .vNone .vNone .vNone .vNone .vNone ≠ .error (.typeMismatch f)) :=
  ⟨rfl, fun _ h => nomatch h⟩

/-- C7 amended: construction performs no type validation and no implicit
coercion — every supplied value, numeric or not, is accepted without error
and stored in the attribute verbatim; no `TypeMismatchError` exists at
construction time. -/
theorem type_coercion_construction_amended
    (g p m pts a r fga fgm fta ftm : PyValue) :
    ∃ pg : PlayerGameDyn,
      mkPlayerGameDyn g p m pts a r fga fgm fta ftm = .ok pg ∧
      pg.points = pts ∧ pg.assists = a ∧ pg.rebounds = r ∧
      pg.fg_attempts = fga ∧ pg.fg_made = fgm ∧
      pg.ft_attempts = fta ∧ pg.ft_made = ftm ∧ pg.minutes = m ∧
      (∀ f, mkPlayerGameDyn g p m pts a r fga fgm fta ftm ≠
        .error (.typeMismatch f)) :=
  ⟨_, rfl, rfl, rfl, rfl, rfl, rfl, rfl, rfl, rfl, fun _ h => nomatch h⟩

/-! ### Commit-time constraints and cascades -/

/-- Removing the elements whose integer key equals `k` removes exactly the
number counted by `countP`. -/
theorem length_filter_key_add_countP {α : Type} (l : List α) (key : α → Int)
    (k : Int) :
    (l.filter fun a => key a != k).length + l.countP (fun a => key a == k)
      = l.length := by
  induction l with
  | nil => rfl
  | cons a l ih =>
    by_cases h : key a = k
    · simp [List.filter_cons, List.countP_cons, h]
      omega
    · simp [List.filter_cons, List.countP_cons, h]
      omega

/-- Searching a list filtered on `key ≠ k` can only return elements whose
key differs from `k`. -/
theorem find?_key_filter_ne {α : Type} (l : List α) (key : α → Int) (k : Int)
    (q : α → Bool) (a : α)
    (h : (l.filter fun x => key x != k).find? q = some a) : key a ≠ k := by
  have hm := List.mem_of_find?_eq_some h
  have hp := (List.mem_filter.1 hm).2
  simpa using hp

/-- Searching for `key = k` in a list filtered on `key ≠ k` finds
nothing. -/
theorem find?_key_filter_self {α : Type} (l : List α) (key : α → Int)
    (k : Int) :
    (l.filter fun x => key x != k).find? (fun x => key x == k) = none := by
  rw [List.find?_eq_none]
  intro x hx
  have hp := (List.mem_filter.1 hx).2
  simpa using hp

/-- Deleting a player preserves referential integrity: the surviving
dependents reference surviving parents. -/
theorem deletePlayer_wellFormed (db : DBState) (pid : Int)
    (hwf : db.wellFormed) : (deletePlayer db pid).wellFormed := by
  obtain ⟨hpg, hinj⟩ := hwf
  unfold DBState.wellFormed deletePlayer
  refine ⟨?_, ?_⟩
  · intro pg hm
    obtain ⟨hmem, hpred⟩ := List.mem_filter.1 hm
    have hne : pg.player_id ≠ pid := by simpa using hpred
    obtain ⟨⟨p, hp, hpid⟩, hg⟩ := hpg pg hmem
    exact ⟨⟨p, List.mem_filter.2 ⟨hp, by simpa [hpid] using hne⟩, hpid⟩, hg⟩
  · intro inj hm
    obtain ⟨hmem, hpred⟩ := List.mem_filter.1 hm
    have hne : inj.player_id ≠ pid := by simpa using hpred
    obtain ⟨p, hp, hpid⟩ := hinj inj hmem
    exact ⟨p, List.mem_filter.2 ⟨hp, by simpa [hpid] using hne⟩, hpid⟩

/-- Deleting a game preserves referential integrity. -/
theorem deleteGame_wellFormed (db : DBState) (gid : Int)
    (hwf : db.wellFormed) : (deleteGame db gid).wellFormed := by
  obtain ⟨hpg, hinj⟩ := hwf
  unfold DBState.wellFormed deleteGame
  refine ⟨?_, ?_⟩
  · intro pg hm
    obtain ⟨hmem, hpred⟩ := List.mem_filter.1 hm
    have hne : pg.game_id ≠ gid := by simpa using hpred
    obtain ⟨hp, g, hg, hgid⟩ := hpg pg hmem
    exact ⟨hp, ⟨g, List.mem_filter.2 ⟨hg, by simpa [hgid] using hne⟩, hgid⟩⟩
  · intro inj hm
    exact hinj inj hm

/-- C2: deleting a `Player` removes, in the same transaction, all N of its
`PlayerGame` rows and all M of its `Injury` rows together with the parent
row, after which no dependent of that player is retrievable by primary key
or by the (`player_id`, `game_id`) pair; deleting a `Game` likewise removes
all of its `PlayerGame` rows; in both cases referential integrity is
preserved, so no orphaned dependent becomes observable. -/
theorem delete_cascades (db : DBState) (pid gid : Int) (hwf : db.wellFormed) :
    ((deletePlayer db pid).player_games.length
        + db.player_games.countP (fun pg => pg.player_id == pid)
      = db.player_games.length) ∧
    ((deletePlayer db pid).injuries.length
        + db.injuries.countP (fun inj => inj.player_id == pid)
      = db.injuries.length) ∧
    findPlayerById (deletePlayer db pid) pid = none ∧
    (∀ i pg, findPlayerGameById (deletePlayer db pid) i = some pg →
        pg.player_id ≠ pid) ∧
    (∀ a b pg, findPlayerGameByPair (deletePlayer db pid) a b = some pg →
        pg.player_id ≠ pid) ∧
    (∀ i inj, findInjuryById (deletePlayer db pid) i = some inj →
        inj.player_id ≠ pid) ∧
    (deletePlayer db pid).wellFormed ∧
    ((deleteGame db gid).player_games.length
        + db.player_games.countP (fun pg => pg.game_id == gid)
      = db.player_games.length) ∧
    findGameById (deleteGame db gid) gid = none ∧
    (∀ i pg, findPlayerGameById (deleteGame db gid) i = some pg →
        pg.game_id ≠ gid) ∧
    (∀ a b pg, findPlayerGameByPair (deleteGame db gid) a b = some pg →
        pg.game_id ≠ gid) ∧
    (deleteGame db gid).wellFormed := by
  refine ⟨?_, ?_, ?_, ?_, ?_, ?_, deletePlayer_wellFormed db pid hwf,
          ?_, ?_, ?_, ?_, deleteGame_wellFormed db gid hwf⟩
  · exact length_filter_key_add_countP db.player_games
      (fun pg => pg.player_id) pid
  · exact length_filter_key_add_countP db.injuries
      (fun inj => inj.player_id) pid
  · exact find?_key_filter_self db.players (fun p => p.id) pid
  · exact fun i pg h =>
      find?_key_filter_ne db.player_games (fun x => x.player_id) pid _ pg h
  · exact fun a b pg h =>
      find?_key_filter_ne db.player_games (fun x => x.player_id) pid _ pg h
  · exact fun i inj h =>
      find?_key_filter_ne db.injuries (fun x => x.player_id) pid _ inj h
  · exact length_filter_key_add_countP db.player_games
      (fun pg => pg.game_id) gid
  · exact find?_key_filter_self db.games (fun g => g.id) gid
  · exact fun i pg h =>
      find?_key_filter_ne db.player_games (fun x => x.game_id) gid _ pg h
  · exact fun a b pg h =>
      find?_key_filter_ne db.player_games (fun x => x.game_id) gid _ pg h

/-- Sample well-formed database: two players, one game, one injury for
player 1, and one statistical line for each player in the game. -/
def sampleDB : DBState :=
  { players :=
      [{ id := 1, name := "A", created_at := "t0", updated_at := "t0" },
       { id := 2, name := "B", created_at := "t0", updated_at := "t0" }],
    games :=
      [{ id := 1, date := "2025-01-01", home_team := "X", away_team := "Y",
         created_at := "t0", updated_at := "t0" }],
    injuries :=
      [{ id := 1, player_id := 1, start := "2025-01-02",
         created_at := "t0", updated_at := "t0" }],
    player_games :=
      [{ id := 1, game_id := 1, player_id := 1, points := 30, fg_made := 10,
         fg_attempts := 20, created_at := "t0", updated_at := "t0" },
       { id := 2, game_id := 1, player_id := 2, points := 28,
         created_at := "t0", updated_at := "t0" }] }

/-- The sample database satisfies referential integrity. -/
theorem sampleDB_wf : sampleDB.wellFormed := by
  unfold DBState.wellFormed
  decide

/-- Witness for C2 on `sampleDB`: deleting player 1 removes its line and its
injury, and the player itself is gone. -/
theorem delete_cascades_witness :
    sampleDB.wellFormed ∧
    ((deletePlayer sampleDB 1).player_games.length
        + sampleDB.player_games.countP (fun pg => pg.player_id == 1)
      = sampleDB.player_games.length) ∧
    ((deletePlayer sampleDB 1).injuries.length
        + sampleDB.injuries.countP (fun inj => inj.player_id == 1)
      = sampleDB.injuries.length) ∧
    findPlayerById (deletePlayer sampleDB 1) 1 = none :=
  ⟨sampleDB_wf,
   (delete_cascades sampleDB 1 1 sampleDB_wf).1,
   (delete_cascades sampleDB 1 1 sampleDB_wf).2.1,
   (delete_cascades sampleDB 1 1 sampleDB_wf).2.2.1⟩

/-- Commit of a `PlayerGame` whose (`player_id`, `game_id`) pair is not yet
present succeeds and appends the row. -/
theorem insertPlayerGame_ok (db : DBState) (pg : PlayerGameRow)
    (h : ∀ q ∈ db.player_games,
        ¬(q.player_id = pg.player_id ∧ q.game_id = pg.game_id)) :
    insertPlayerGame db pg =
      .ok { db with player_games := db.player_games ++ [pg] } := by
  have hc : ¬(db.player_games.any
      fun q => q.player_id == pg.player_id && q.game_id == pg.game_id)
        = true := by
    rw [List.any_eq_true]
    rintro ⟨q, hq, hqq⟩
    rw [Bool.and_eq_true, beq_iff_eq, beq_iff_eq] at hqq
    exact h q hq hqq
  unfold insertPlayerGame
  rw [if_neg hc]

/-- Commit of a `PlayerGame` whose (`player_id`, `game_id`) pair is already
present fails with the unique-constraint violation. -/
theorem insertPlayerGame_dup (db : DBState) (pg q : PlayerGameRow)
    (hq : q ∈ db.player_games) (hp : q.player_id = pg.player_id)
    (hg : q.game_id = pg.game_id) :
    insertPlayerGame db pg = .error .uniqueConstraintViolation := by
  have hc : (db.player_games.any
      fun r => r.player_id == pg.player_id && r.game_id == pg.game_id)
        = true := by
    rw [List.any_eq_true]
    exact ⟨q, hq, by rw [Bool.and_eq_true, beq_iff_eq, beq_iff_eq];
                     exact ⟨hp, hg⟩⟩
  unfold insertPlayerGame
  rw [if_pos hc]

/-- C3: committing a second `PlayerGame` with the same (`player_id`,
`game_id`) pair as an already-committed one fails with the unique-constraint
violation, so a committed state holds at most one line per player per game;
changing either value of the pair (to a pair not already present) and
retrying the commit succeeds. -/
theorem player_game_pair_unique (db db' : DBState)
    (pg1 pg2 pg3 : PlayerGameRow)
    (hp : pg2.player_id = pg1.player_id) (hg : pg2.game_id = pg1.game_id)
    (hok : insertPlayerGame db pg1 = .ok db')
    (hdiff : pg3.player_id ≠ pg1.player_id ∨ pg3.game_id ≠ pg1.game_id)
    (hfresh : ∀ q ∈ db.player_games,
        ¬(q.player_id = pg3.player_id ∧ q.game_id = pg3.game_id)) :
    insertPlayerGame db' pg2 = .error .uniqueConstraintViolation ∧
    insertPlayerGame db' pg3 =
      .ok { db' with player_games := db'.player_games ++ [pg3] } := by
  have hdb' : db' = { db with player_games := db.player_games ++ [pg1] } := by
    unfold insertPlayerGame at hok
    split at hok
    · exact absurd hok (by simp)
    · injection hok with h2
      exact h2.symm
  subst hdb'
  constructor
  · exact insertPlayerGame_dup _ pg2 pg1 (by simp) hp.symm hg.symm
  · refine insertPlayerGame_ok _ pg3 ?_
    intro q hq
    rcases List.mem_append.1 hq with hql | hqr
    · exact hfresh q hql
    · rintro ⟨h1, h2⟩
      have hq1 : q = pg1 := by simpa using hqr
      subst hq1
      rcases hdiff with hd | hd
      · exact hd h1.symm
      · exact hd h2.symm

/-- Line of player 1 in game 1, first version. -/
def pgRowA : PlayerGameRow :=
  { id := 10, game_id := 1, player_id := 1,
    created_at := "t0", updated_at := "t0" }

/-- A second line for the same (player 1, game 1) pair. -/
def pgRowB : PlayerGameRow :=
  { id := 11, game_id := 1, player_id := 1, points := 5,
    created_at := "t0", updated_at := "t0" }

/-- The retry: same player, different game. -/
def pgRowC : PlayerGameRow :=
  { id := 12, game_id := 2, player_id := 1,
    created_at := "t0", updated_at := "t0" }

/-- Witness for C3 at concrete rows: the duplicate pair is rejected and the
changed pair is accepted. -/
theorem player_game_pair_unique_witness :
    insertPlayerGame { player_games := [pgRowA] } pgRowB =
        .error .uniqueConstraintViolation ∧
    insertPlayerGame { player_games := [pgRowA] } pgRowC =
        .ok { player_games := [pgRowA, pgRowC] } := by
  have h := player_game_pair_unique {} { player_games := [pgRowA] }
      pgRowA pgRowB pgRowC rfl rfl rfl (Or.inr (by decide)) (by simp)
  exact ⟨h.1, h.2⟩

/-- Commit of a `Player` whose non-null `external_id` is already present
fails with the unique-constraint violation. -/
theorem insertPlayer_dup (db : DBState) (p q : PlayerRow) (x : String)
    (hq : q ∈ db.players) (hqx : q.external_id = some x)
    (hpx : p.external_id = some x) :
    insertPlayer db p = .error .uniqueConstraintViolation := by
  have hc : (db.players.any fun r => r.external_id == some x) = true := by
    rw [List.any_eq_true]
    exact ⟨q, hq, by rw [beq_iff_eq]; exact hqx⟩
  simp only [insertPlayer, hpx]
  rw [if_pos hc]

/-- Commit of a `Game` whose non-null `external_id` is already present fails
with the unique-constraint violation. -/
theorem insertGame_dup (db : DBState) (g q : GameRow) (y : String)
    (hq : q ∈ db.games) (hqy : q.external_id = some y)
    (hgy : g.external_id = some y) :
    insertGame db g = .error .uniqueConstraintViolation := by
  have hc : (db.games.any fun r => r.external_id == some y) = true := by
    rw [List.any_eq_true]
    exact ⟨q, hq, by rw [beq_iff_eq]; exact hqy⟩
  simp only [insertGame, hgy]
  rw [if_pos hc]

/-- Successful commit appends the row: extracting the committed state from
an `insertPlayer` success. -/
theorem insertPlayer_ok_eq (db db' : DBState) (p : PlayerRow)
    (hok : insertPlayer db p = .ok db') :
    db' = { db with players := db.players ++ [p] } := by
  unfold insertPlayer at hok
  cases hpx : p.external_id with
  | none =>
    rw [hpx] at hok
    injection hok with h2
    exact h2.symm
  | some x =>
    rw [hpx] at hok
    simp only at hok
    split at hok
    · exact absurd hok (by simp)
    · injection hok with h2
      exact h2.symm

/-- Successful commit appends the row: extracting the committed state from
an `insertGame` success. -/
theorem insertGame_ok_eq (db db' : DBState) (g : GameRow)
    (hok : insertGame db g = .ok db') :
    db' = { db with games := db.games ++ [g] } := by
  unfold insertGame at hok
  cases hgy : g.external_id with
  | none =>
    rw [hgy] at hok
    injection hok with h2
    exact h2.symm
  | some y =>
    rw [hgy] at hok
    simp only at hok
    split at hok
    · exact absurd hok (by simp)
    · injection hok with h2
      exact h2.symm

/-- C4: committing a second `Player` (resp. `Game`) whose non-null
`external_id` collides with an already-committed one fails with the
unique-constraint violation, while a record with a null `external_id` always
commits — the uniqueness check is skipped on null. -/
theorem external_id_uniqueness (db db' dbg dbg' : DBState)
    (p1 p2 : PlayerRow) (g1 g2 : GameRow) (x y : String)
    (hx1 : p1.external_id = some x) (hx2 : p2.external_id = some x)
    (hok : insertPlayer db p1 = .ok db')
    (hy1 : g1.external_id = some y) (hy2 : g2.external_id = some y)
    (hgok : insertGame dbg g1 = .ok dbg') :
    insertPlayer db' p2 = .error .uniqueConstraintViolation ∧
    insertGame dbg' g2 = .error .uniqueConstraintViolation ∧
    (∀ (d : DBState) (p : PlayerRow), p.external_id = none →
        insertPlayer d p = .ok { d with players := d.players ++ [p] }) ∧
    (∀ (d : DBState) (g : GameRow), g.external_id = none →
        insertGame d g = .ok { d with games := d.games ++ [g] }) := by
  refine ⟨?_, ?_, fun d p hnone => by simp [insertPlayer, hnone],
          fun d g hnone => by simp [insertGame, hnone]⟩
  · rw [insertPlayer_ok_eq db db' p1 hok]
    exact insertPlayer_dup _ p2 p1 x (by simp) hx1 hx2
  · rw [insertGame_ok_eq dbg dbg' g1 hgok]
    exact insertGame_dup _ g2 g1 y (by simp) hy1 hy2

/-- First player carrying the external identifier `"X"`. -/
def playerX1 : PlayerRow :=
  { id := 1, external_id := some "X", name := "A",
    created_at := "t0", updated_at := "t0" }

/-- A distinct player carrying the same external identifier `"X"`. -/
def playerX2 : PlayerRow :=
  { id := 2, external_id := some "X", name := "B",
    created_at := "t0", updated_at := "t0" }

/-- First game carrying the external identifier `"Y"`. -/
def gameY1 : GameRow :=
  { id := 1, external_id := some "Y", date := "2025-01-01",
    home_team := "H", away_team := "V",
    created_at := "t0", updated_at := "t0" }

/-- A distinct game carrying the same external identifier `"Y"`. -/
def gameY2 : GameRow :=
  { id := 2, external_id := some "Y", date := "2025-01-02",
    home_team := "H", away_team := "V",
    created_at := "t0", updated_at := "t0" }

/-- Witness for C4 at concrete records: the colliding non-null external
identifiers are rejected for both entity types. -/
theorem external_id_uniqueness_witness :
    insertPlayer { players := [playerX1] } playerX2 =
        .error .uniqueConstraintViolation ∧
    insertGame { games := [gameY1] } gameY2 =
        .error .uniqueConstraintViolation := by
  have h := external_id_uniqueness {} { players := [playerX1] }
      {} { games := [gameY1] } playerX1 playerX2 gameY1 gameY2 "X" "Y"
      rfl rfl rfl rfl rfl rfl
  exact ⟨h.1, h.2.1⟩

end FantasyBasketballSim
